import Mathlib

/-!
Verification of the GitHub-Jira integration action (`src/index.js`) against its
specification.  The JavaScript is shallowly embedded: the key-extraction regex
`/[^A-Za-z].([A-Za-z]+-\d+)/` is modelled as a backtracking scan over the
character list, strings are Lean `String`s (JS slicing is on code units, here
characters), nullable JS values are `Option String`, and the orchestrator
`main` becomes the pure function `run` that records the mutating collaborator
calls it would issue and the process outcome.
-/

namespace GJI

/-- JS `.` (no `s` flag): any character except a line terminator. -/
def isDotChar (c : Char) : Bool :=
  !(c == Char.ofNat 10 || c == Char.ofNat 13 || c == Char.ofNat 0x2028 || c == Char.ofNat 0x2029)

/-- The capture group `([A-Za-z]+-\d+)` of `jiraTicketFormat` (index.js:30),
matched at a fixed start position.  Greedy `[A-Za-z]+` cannot backtrack past
the maximal letter run (any shorter cut would have to continue with a letter,
not `-`), so the group matches exactly the maximal letter run, a dash and the
maximal digit run. -/
def matchKeyAt (l : List Char) : Option (List Char) :=
  let ls := l.takeWhile Char.isAlpha
  if ls = [] then none
  else
    match l.drop ls.length with
    | '-' :: rest =>
      let ds := rest.takeWhile Char.isDigit
      if ds = [] then none else some (ls ++ '-' :: ds)
    | _ => none

/-- Leftmost match of `/[^A-Za-z].([A-Za-z]+-\d+)/` (index.js:30): scan start
positions left to right; at each position require a non-letter, then any
non-line-terminator character, then the capture group. Returns the capture. -/
def jiraScan : List Char → Option (List Char)
  | [] => none
  | c0 :: rest =>
    match rest with
    | [] => none
    | c1 :: rest2 =>
      match (if !c0.isAlpha && isDotChar c1 then matchKeyAt rest2 else none) with
      | some k => some k
      | none => jiraScan rest

/-- index.js:58-67 — the key is taken from the title match if any, else from
the branch-name match. -/
def resolveKey (title branch : String) : Option String :=
  match jiraScan title.data with
  | some k => some ⟨k⟩
  | none => (jiraScan branch.data).map fun k => ⟨k⟩

/-- index.js:58-59 — whether the title itself matched (`foundInTitle` truthy). -/
def titleHasKey (title : String) : Bool :=
  (jiraScan title.data).isSome

/-- JS template-literal coercion of a possibly-`undefined` value. -/
def jsUndef : Option String → String
  | none => "undefined"
  | some s => s

/-- JS template-literal coercion of a possibly-`null` value. -/
def jsNull : Option String → String
  | none => "null"
  | some s => s

/-- JS truthiness of a nullable string (`undefined`/`null` and `""` are falsy). -/
def jsTruthyS : Option String → Bool
  | none => false
  | some s => s ≠ ""

/-- The interpolated tracker-link text
`[${key}${cond ? `: ${issueTitle}` : ''}](${host}/browse/${key})` shared by
index.js:97, 103, 138 and 210.  At lines 97/103 `cond` is the truthiness of
`issueTitle`; at lines 138/210 it is the truthiness of `foundInTitle`. -/
def prLink (key : Option String) (withSummary : Bool) (issueTitle : Option String)
    (host : String) : String :=
  "[" ++ jsUndef key ++ (if withSummary then ": " ++ jsUndef issueTitle else "") ++
    "](" ++ host ++ "/browse/" ++ jsUndef key ++ ")"

/-- index.js:126-138 — the description edit of append-description mode.
`m = some (i, n)` means the configured regex's first match in the body starts
at index `i` with length `n`; `m = none` covers both "no regex configured" and
"no match" (`search` returned `-1`), where `from` and `length` stay `0`. -/
def insertLinkAppend (body : String) (m : Option (Nat × Nat)) (link : String) : String :=
  let fl := match m with | none => (0, 0) | some p => p
  ⟨body.data.take (fl.1 + fl.2) ++ (if fl.1 = 0 then [] else [' ']) ++ link.data ++
    (if fl.1 = 0 then ['\n'] else []) ++ body.data.drop (fl.1 + fl.2)⟩

/-- The action inputs (index.js:11-28).  `core.getInput` yields `""` for an
unset input, and the code tests the strings for JS truthiness, so optional
inputs are plain strings here with `""` meaning "not configured". -/
structure Config where
  webhook : String
  host : String
  email : String
  token : String
  project : String
  transition : String
  version : String
  component : String
  type_ : String
  board : String
  isOnlyTransition : Bool
  isCreateIssue : Bool
  otherAssignedTransition : String
  isAssignToReporter : Bool
  isOnlyAppendDesc : Bool
  appendDescAfterRegex : String
  isAddFixVersionOnMerge : Bool
  deriving DecidableEq, Repr

/-- The pull-request event payload fields the code reads.  `body` is nullable. -/
structure PullRequest where
  title : String
  body : Option String
  headRef : String
  merged : Bool
  htmlUrl : String
  deriving DecidableEq, Repr

instance {ε α : Type} [DecidableEq ε] [DecidableEq α] : DecidableEq (Except ε α) := fun a b =>
  match a, b with
  | .error e, .error f =>
    if h : e = f then isTrue (by rw [h]) else isFalse (fun hh => h (Except.error.inj hh))
  | .error _, .ok _ => isFalse (fun hh => Except.noConfusion hh)
  | .ok _, .error _ => isFalse (fun hh => Except.noConfusion hh)
  | .ok x, .ok y =>
    if h : x = y then isTrue (by rw [h]) else isFalse (fun hh => h (Except.ok.inj hh))

/-- Results of the read-only collaborator calls, supplied as an oracle.  Only
the two calls whose failure behaviour the code distinguishes are fallible
here: the issue-summary fetch (index.js:74, awaited with no catch) and the
fuzzy user lookup (index.js:158, `.catch(core.info)`).  Every other
collaborator call is assumed to succeed; its failure behaviour is not claimed. -/
structure Env where
  latestTitle : Option String
  issueSummary : Except String String
  fuzzyUserId : Except String String
  versionId : String
  createdKey : String
  activeSprintId : String
  isMeCreatedIssue : Bool
  reporterId : String
  regexSearch : Option (Nat × Nat)
  deriving DecidableEq, Repr

/-- The mutating collaborator calls the run issues, in order. -/
inductive Action where
  | webhookPost (url : String) (issues : List String)
  | putFixVersion (key versionId : String)
  | updatePR (title : Option String) (body : Option String)
  | postComment (key url : String)
  | postIssue (summary : String) (assigneeId : Option String)
  | moveIssuesToSprint (keys : List String) (sprintId : String)
  | transitIssue (key name : String)
  | assignIssue (key userId : String)
  deriving DecidableEq, Repr

/-- Process outcome: `success` for every `process.exit(0)` and for falling off
the end of `main`; `failure` for a thrown/rejected error reaching
`main().catch(core.setFailed)` (the action run fails). -/
inductive Outcome where
  | success
  | failure (msg : String)
  deriving DecidableEq, Repr

structure RunResult where
  actions : List Action
  outcome : Outcome
  deriving DecidableEq, Repr

/-- index.js:171-216 — the shared tail: bail out successfully when no key,
else transition (the `otherAssignedTransition` override applies when the
ticket was not created by the automation's identity), stop if
`isOnlyTransition`, optionally assign to the reporter, post the linked-PR
comment, and update the PR (body always; title when
`isCreateIssue || !foundInTitle`). -/
def sharedTail (cfg : Config) (pr : PullRequest) (env : Env) (key : Option String)
    (foundInTitle : Bool) (issueTitle : Option String) (latestPrTitle : String)
    (acc : List Action) : RunResult :=
  match key with
  | none => ⟨acc, .success⟩
  | some k =>
    let transitionName :=
      if cfg.otherAssignedTransition ≠ "" ∧ env.isMeCreatedIssue = false then
        cfg.otherAssignedTransition
      else cfg.transition
    let acc1 := if transitionName ≠ "" then acc ++ [Action.transitIssue k transitionName] else acc
    if cfg.isOnlyTransition then ⟨acc1, .success⟩
    else
      let acc2 := if cfg.isAssignToReporter then acc1 ++ [Action.assignIssue k env.reporterId] else acc1
      let acc3 := acc2 ++ [Action.postComment k pr.htmlUrl]
      let newBody := prLink (some k) foundInTitle issueTitle cfg.host ++ "\n" ++ jsNull pr.body
      let newTitle :=
        if cfg.isCreateIssue ∨ foundInTitle = false then
          some (latestPrTitle ++ " [" ++ k ++ "]")
        else none
      ⟨acc3 ++ [Action.updatePR newTitle (some newBody)], .success⟩

/-- index.js:145-169 — create-issue mode: missing `project`/`type` throw; an
already-resolved key exits 0; otherwise the issue is created (assignee from
the caught fuzzy lookup, `undefined` on failure), optionally moved to the
active sprint, and control falls into the shared tail with the new key and
the PR title as `issueTitle`. -/
def createIssuePhase (cfg : Config) (pr : PullRequest) (env : Env) (key : Option String)
    (foundInTitle : Bool) (latestPrTitle : String) : RunResult :=
  if cfg.project = "" then ⟨[], .failure ("Creating issue need project")⟩
  else if cfg.type_ = "" then ⟨[], .failure ("Creating issue need type")⟩
  else if foundInTitle = true ∨ key.isSome = true then ⟨[], .success⟩
  else
    let userId : Option String := match env.fuzzyUserId with | .ok u => some u | .error _ => none
    let acc0 := [Action.postIssue latestPrTitle userId]
    let acc1 :=
      if cfg.board ≠ "" then
        acc0 ++ [Action.moveIssuesToSprint [env.createdKey] env.activeSprintId]
      else acc0
    sharedTail cfg pr env (some env.createdKey) foundInTitle (some latestPrTitle) latestPrTitle acc1

/-- index.js:125-143 — append-description mode.  A `null` body throws a
`TypeError` at `pr.body.search`/`pr.body.slice` (caught by
`main().catch(core.setFailed)`, failing the run); otherwise the body is
rewritten via the line-138 edit and only the body is updated. -/
def appendDescPhase (cfg : Config) (pr : PullRequest) (env : Env) (key : Option String)
    (foundInTitle : Bool) (issueTitle : Option String) : RunResult :=
  match pr.body with
  | none => ⟨[], .failure ("TypeError: Cannot read properties of null")⟩
  | some b =>
    let m := if cfg.appendDescAfterRegex ≠ "" then env.regexSearch else none
    ⟨[Action.updatePR none
        (some (insertLinkAppend b m (prLink key foundInTitle issueTitle cfg.host)))],
      .success⟩

/-- index.js:77-123 — webhook-relay mode: exit 0 when no key; POST the webhook;
on merge optionally attach the prefix-resolved fix version and exit 0; when not
merged update the PR (title only when the key did not come from the title) and,
when credentials are present, post the linked-PR comment. -/
def webhookPhase (cfg : Config) (pr : PullRequest) (env : Env) (key : Option String)
    (foundInTitle : Bool) (issueTitle : Option String) (latestPrTitle : String) : RunResult :=
  match key with
  | none => ⟨[], .success⟩
  | some k =>
    let acc0 := [Action.webhookPost cfg.webhook [k]]
    if pr.merged then
      if cfg.isAddFixVersionOnMerge then
        ⟨acc0 ++ [Action.putFixVersion k env.versionId], .success⟩
      else ⟨acc0, .success⟩
    else
      let newBody := prLink (some k) (jsTruthyS issueTitle) issueTitle cfg.host ++ "\n" ++ jsNull pr.body
      let acc1 :=
        if foundInTitle then acc0 ++ [Action.updatePR none (some newBody)]
        else acc0 ++ [Action.updatePR (some (latestPrTitle ++ " [" ++ k ++ "]")) (some newBody)]
      if cfg.email ≠ "" ∧ cfg.token ≠ "" then ⟨acc1 ++ [Action.postComment k pr.htmlUrl], .success⟩
      else ⟨acc1, .success⟩

/-- index.js:55 — the authoritative title: the re-fetched one when truthy,
else the event-payload title. -/
def latestTitleOf (pr : PullRequest) (env : Env) : String :=
  if jsTruthyS env.latestTitle then jsUndef env.latestTitle else pr.title

/-- index.js:77-216 — the mode dispatch after key resolution and the optional
summary fetch: exactly one of webhook mode (77), append-description mode
(125), create-issue mode (145) or the shared tail (171) runs, in that
precedence order. -/
def afterSummary (cfg : Config) (pr : PullRequest) (env : Env) (key : Option String)
    (foundInTitle : Bool) (latestPrTitle : String) (issueTitle : Option String) : RunResult :=
  if cfg.webhook ≠ "" then webhookPhase cfg pr env key foundInTitle issueTitle latestPrTitle
  else if cfg.isOnlyAppendDesc then appendDescPhase cfg pr env key foundInTitle issueTitle
  else if cfg.isCreateIssue then createIssuePhase cfg pr env key foundInTitle latestPrTitle
  else sharedTail cfg pr env key foundInTitle issueTitle latestPrTitle []

/-- index.js:10-217 — the orchestrator `main`.  The authoritative title is
resolved (line 55), then the key (58-67); then, when credentials are
configured and a key exists, the issue summary is awaited with no catch, so
its rejection fails the run (72-75); then the mode dispatch runs. -/
def run (cfg : Config) (pr : PullRequest) (env : Env) : RunResult :=
  let latestPrTitle := latestTitleOf pr env
  let foundInTitle := titleHasKey latestPrTitle
  let key := resolveKey latestPrTitle pr.headRef
  let summaryStep : Except String (Option String) :=
    if cfg.email ≠ "" ∧ cfg.token ≠ "" ∧ key.isSome = true then env.issueSummary.map some
    else .ok none
  match summaryStep with
  | .error e => ⟨[], .failure e⟩
  | .ok issueTitle => afterSummary cfg pr env key foundInTitle latestPrTitle issueTitle

/-- When the summary fetch succeeds (or is skipped), the run is the mode
dispatch, with the summary threaded through exactly when it was fetched. -/
theorem run_ok (cfg : Config) (pr : PullRequest) (env : Env) (s : String)
    (hs : env.issueSummary = .ok s) :
    run cfg pr env = afterSummary cfg pr env (resolveKey (latestTitleOf pr env) pr.headRef)
      (titleHasKey (latestTitleOf pr env)) (latestTitleOf pr env)
      (if cfg.email ≠ "" ∧ cfg.token ≠ "" ∧
          (resolveKey (latestTitleOf pr env) pr.headRef).isSome = true then some s
        else none) := by
  simp only [run, hs]
  by_cases h : (cfg.email ≠ "" ∧ cfg.token ≠ "" ∧
      (resolveKey (latestTitleOf pr env) pr.headRef).isSome = true)
  · rw [if_pos h, if_pos h]
    rfl
  · rw [if_neg h, if_neg h]

/-- When the fetch condition fails (no credentials or no key), no summary is
fetched and the run is the dispatch with no summary. -/
theorem run_nofetch (cfg : Config) (pr : PullRequest) (env : Env)
    (hnc : ¬(cfg.email ≠ "" ∧ cfg.token ≠ "" ∧
      (resolveKey (latestTitleOf pr env) pr.headRef).isSome = true)) :
    run cfg pr env = afterSummary cfg pr env (resolveKey (latestTitleOf pr env) pr.headRef)
      (titleHasKey (latestTitleOf pr env)) (latestTitleOf pr env) none := by
  simp only [run]
  rw [if_neg hnc]

/-! ## Helper lemmas -/

theorem mk_data_eq (l : List Char) (t : String) (h : l = t.data) : String.mk l = t := by
  cases t with | mk d => exact congrArg String.mk h

theorem data_ne_nil_of_ne_empty : ∀ {s : String}, s ≠ "" → s.data ≠ []
  | ⟨[]⟩, h => absurd rfl h
  | ⟨_ :: _⟩, _ => fun hh => List.noConfusion hh

theorem insertLink_none (body link : String) :
    insertLinkAppend body none link = link ++ "\n" ++ body := by
  refine mk_data_eq _ _ ?_
  simp [String.data_append, show ("\n" : String).data = [Char.ofNat 10] from rfl]

theorem sharedTail_extends (cfg : Config) (pr : PullRequest) (env : Env) (key : Option String)
    (fit : Bool) (ititle : Option String) (ltitle : String) (acc : List Action) :
    acc <+: (sharedTail cfg pr env key fit ititle ltitle acc).actions := by
  cases key with
  | none => simp [sharedTail]
  | some k =>
    simp only [sharedTail]
    repeat' split
    all_goals simp [List.prefix_append, List.append_assoc]

/-- If no key is resolved at all, the title in particular had no match. -/
theorem titleScan_none_of_resolve_none {t b : String} (h : resolveKey t b = none) :
    jiraScan t.data = none := by
  unfold resolveKey at h
  cases hs : jiraScan t.data with
  | none => rfl
  | some k => rw [hs] at h; exact Option.noConfusion h

/-! ## Shared fixtures for concrete scenarios -/

def cfgBase : Config :=
  { webhook := "", host := "H", email := "", token := "", project := "", transition := "",
    version := "", component := "", type_ := "", board := "", isOnlyTransition := false,
    isCreateIssue := false, otherAssignedTransition := "", isAssignToReporter := false,
    isOnlyAppendDesc := false, appendDescAfterRegex := "", isAddFixVersionOnMerge := false }

def envBase : Env :=
  { latestTitle := none, issueSummary := .ok ("S"), fuzzyUserId := .ok ("U1"),
    versionId := "V1", createdKey := "NP-7", activeSprintId := "SP1",
    isMeCreatedIssue := true, reporterId := "R1", regexSearch := none }

/-- PR whose title contains a key preceded by two non-letters, so the full key
`AB-12` is captured. -/
def prTitleKey : PullRequest :=
  { title := "Fix: AB-12 stuff", body := some ("B"), headRef := "br", merged := false,
    htmlUrl := "U" }

/-- PR with no key in the title and a lowercase branch key. -/
def prBranchKey : PullRequest :=
  { title := "Fix login bug", body := some ("B"), headRef := "feature/ab-99-fix",
    merged := false, htmlUrl := "U" }

/-- PR with no key anywhere. -/
def prNoKey : PullRequest :=
  { title := "Fix login bug", body := some ("B"), headRef := "feature", merged := false,
    htmlUrl := "U" }

/-! ## Claim theorems -/

/-- C1: the spec claims that for the title "Fix login bug AB-42" the resolved
key is the full `AB-42`, the branch being ignored.  The code does ignore the
branch, but the regex `[^A-Za-z].([A-Za-z]+-\d+)` makes the `.` consume the
character directly before the capture, so with a single non-letter separator
the key's first letter is eaten and the resolved key is `B-42` — contradicting
the code's own comment (index.js:57, "`AB-1234` Jira issue key"). -/
theorem C1_title_key_truncated :
    ∀ branch : String, resolveKey ("Fix login bug AB-42") branch = some ("B-42") :=
  fun _ => rfl

/-- C2 counterexample: the claim says that for title "Fix login bug" and the
lowercase branch "feature/ab-99-fix" no key is resolved from either source.
In fact the pattern's letter class is `[A-Za-z]`, so the branch matches and
the key `b-99` is resolved (the `a` is consumed by the regex's `.`). -/
theorem C2_counterexample :
    resolveKey ("Fix login bug") ("feature/ab-99-fix") = some ("b-99") ∧
      resolveKey ("Fix login bug") ("feature/ab-99-fix") ≠ none := by
  refine ⟨rfl, ?_⟩
  decide

/-- C2 amended: the lowercase branch does match (key `b-99`), so with no other
flags set the run does not exit without mutations: it runs the shared tail,
posting the linked-PR comment and updating the PR title and body. -/
theorem C2_amended :
    run cfgBase prBranchKey envBase =
      ⟨[Action.postComment ("b-99") ("U"),
        Action.updatePR (some ("Fix login bug [b-99]")) (some ("[b-99](H/browse/b-99)\nB"))],
        .success⟩ :=
  rfl

/-- C9: with no anchor pattern (or no match) the description edit returns
exactly `link + "\n" + body`: the link at offset 0 with a trailing newline and
the original body unchanged after it. -/
theorem C9_insert_at_top (body link : String) :
    insertLinkAppend body none link = link ++ "\n" ++ body :=
  insertLink_none body link

/-- C4 counterexample: the claim says a match of the anchor pattern at
`[i, j)` always yields `body[0:j) ++ " " ++ link ++ body[j:]`.  When the match
starts at index 0 (here "Anchor" at `[0, 6)`), `from === 0` routes the edit to
the no-anchor formatting: no space and a trailing newline are used instead. -/
theorem C4_counterexample :
    insertLinkAppend ("Anchor tail") (some (0, 6)) ("[K]") = ("Anchor[K]\n tail") ∧
      insertLinkAppend ("Anchor tail") (some (0, 6)) ("[K]") ≠ ("Anchor [K] tail") := by
  constructor
  · rfl
  · decide

/-- C4 amended: when the anchor pattern matches `S` at `[i, j)` with `i > 0`,
the edit returns the unchanged prefix `body[0:j)`, a single space, the link
(no trailing newline), and the unchanged remainder `body[j:]`; a match at
`i = 0` instead gets the no-anchor formatting (no space, trailing newline). -/
theorem C4_amended (pre s post link : String) (h : pre ≠ "") :
    insertLinkAppend (pre ++ s ++ post) (some (pre.length, s.length)) link =
      pre ++ s ++ " " ++ link ++ post := by
  obtain ⟨dp⟩ := pre
  obtain ⟨ds⟩ := s
  obtain ⟨dq⟩ := post
  obtain ⟨dl⟩ := link
  have hd : dp ≠ [] := data_ne_nil_of_ne_empty h
  have hl : dp.length ≠ 0 := fun h0 => hd (List.length_eq_zero.mp h0)
  refine mk_data_eq _ _ ?_
  show (dp ++ ds ++ dq).take (dp.length + ds.length) ++
      (if dp.length = 0 then [] else [Char.ofNat 32]) ++ dl ++
      (if dp.length = 0 then [Char.ofNat 10] else []) ++
      (dp ++ ds ++ dq).drop (dp.length + ds.length) =
    (((dp ++ ds) ++ [Char.ofNat 32]) ++ dl) ++ dq
  rw [if_neg hl, if_neg hl, ← List.length_append, List.take_left, List.drop_left,
    List.append_nil]

/-- C4 witness: a concrete positive-offset anchor match. -/
theorem C4_amended_witness :
    insertLinkAppend (("A" : String) ++ "B" ++ "C") (some (("A" : String).length, ("B" : String).length)) ("[L]") =
      ("A" : String) ++ "B" ++ " " ++ "[L]" ++ "C" :=
  C4_amended ("A") ("B") ("C") ("[L]") (by decide)

def cfgCreds : Config := { cfgBase with email := "E", token := "T" }

def cfgWebhookCreds : Config := { cfgBase with webhook := "W", email := "E", token := "T" }

def cfgAppend : Config := { cfgCreds with isOnlyAppendDesc := true }

/-- PR in append-description scenarios whose body is null. -/
def prNilBody : PullRequest :=
  { title := "Fix: AB-7 x", body := none, headRef := "br", merged := false, htmlUrl := "U" }

/-- Same PR with an empty-string body. -/
def prEmptyBody : PullRequest := { prNilBody with body := some ("") }

/-- C3 counterexample: the claim says an empty-or-nil body is treated as the
empty string and the append-description-only mode completes without error.
On a nil body, `pr.body.search`/`pr.body.slice` throw a TypeError, which
reaches `main().catch(core.setFailed)`: the run fails and no update happens. -/
theorem C3_counterexample :
    run cfgAppend prNilBody envBase =
      ⟨[], .failure ("TypeError: Cannot read properties of null")⟩ :=
  rfl

/-- C3 amended: an empty-string body is handled (insertion point 0, link plus
newline, no crash), but a nil body makes the append-description-only step
throw, failing the run with no PR update. -/
theorem C3_amended :
    run cfgAppend prEmptyBody envBase =
        ⟨[Action.updatePR none (some ("[AB-7: S](H/browse/AB-7)\n"))], .success⟩ ∧
      run cfgAppend prNilBody envBase =
        ⟨[], .failure ("TypeError: Cannot read properties of null")⟩ :=
  ⟨rfl, rfl⟩

/-- C5 counterexample: the claim says the link text carries `: SUMMARY`
exactly when a summary was fetched.  In the default full-sync path with the
key found in the title but no tracker credentials (so no summary fetch), the
link is `[AB-12: undefined](H/browse/AB-12)` — not `[AB-12](H/browse/AB-12)`
as the claim requires. -/
theorem C5_counterexample :
    (run cfgBase prTitleKey envBase).actions.getLast? =
        some (Action.updatePR none (some ("[AB-12: undefined](H/browse/AB-12)\nB"))) ∧
      (run cfgBase prTitleKey envBase).actions.getLast? ≠
        some (Action.updatePR none (some ("[AB-12](H/browse/AB-12)\nB"))) := by
  refine ⟨rfl, ?_⟩
  decide

/-- C5 amended: only the webhook path keys the `: SUMMARY` part on the fetched
summary; the append-description and shared-tail paths key it on whether the
key came from the title.  So: key from branch with a fetched summary — the
summary is omitted (for every fetched summary string); key from title with no
fetch — the link reads `: undefined`; webhook path with a fetch — the summary
appears. -/
theorem C5_amended :
    (∀ s : String,
      (run cfgCreds prBranchKey { envBase with issueSummary := .ok s }).actions.getLast? =
        some (Action.updatePR (some ("Fix login bug [b-99]"))
          (some ("[b-99](H/browse/b-99)\nB")))) ∧
      (run cfgBase prTitleKey envBase).actions.getLast? =
        some (Action.updatePR none (some ("[AB-12: undefined](H/browse/AB-12)\nB"))) ∧
      (run cfgWebhookCreds prTitleKey envBase).actions =
        [Action.webhookPost ("W") [("AB-12")],
          Action.updatePR none (some ("[AB-12: S](H/browse/AB-12)\nB")),
          Action.postComment ("AB-12") ("U")] := by
  refine ⟨fun s => ?_, rfl, rfl⟩
  rfl

/-- C6 counterexample: the claim says a summary-fetch failure is caught and
every subsequent action still executes.  The fetch at index.js:74 is awaited
with no catch, so its rejection aborts the run before any action. -/
theorem C6_counterexample :
    run cfgCreds prTitleKey { envBase with issueSummary := .error ("boom") } =
      ⟨[], .failure ("boom")⟩ :=
  rfl

/-- C6 amended: when credentials are configured and a key was resolved, a
failure of the summary lookup is not caught: it propagates, the run fails
with that error, and no subsequent action executes.  (Only the fuzzy
user lookup of create-issue mode is best-effort, via `.catch(core.info)`.) -/
theorem C6_amended (cfg : Config) (pr : PullRequest) (env : Env) (msg : String)
    (he : cfg.email ≠ "") (ht : cfg.token ≠ "")
    (hk : (resolveKey (latestTitleOf pr env) pr.headRef).isSome = true)
    (hs : env.issueSummary = .error msg) :
    run cfg pr env = ⟨[], .failure msg⟩ := by
  simp only [run]
  rw [if_pos ⟨he, ht, hk⟩, hs]
  rfl

/-- C6 witness: a concrete failing summary fetch. -/
theorem C6_amended_witness :
    run cfgCreds prTitleKey { envBase with issueSummary := .error ("boom") } =
      ⟨[], .failure ("boom")⟩ :=
  C6_amended cfgCreds prTitleKey { envBase with issueSummary := .error ("boom") } ("boom")
    (by decide) (by decide) (by decide) rfl

/-- In create-issue mode the phase either performs no action at all (config
error or a pre-existing key) or its very first action is the issue creation. -/
theorem createIssuePhase_first_action (cfg : Config) (pr : PullRequest) (env : Env)
    (key : Option String) (fit : Bool) (lt : String) :
    (createIssuePhase cfg pr env key fit lt).actions = [] ∨
      ∃ s u rest, (createIssuePhase cfg pr env key fit lt).actions =
        Action.postIssue s u :: rest := by
  simp only [createIssuePhase]
  split
  · exact Or.inl rfl
  · split
    · exact Or.inl rfl
    · split
      · exact Or.inl rfl
      · refine Or.inr ?_
        by_cases hb : cfg.board ≠ ""
        · rw [if_pos hb]
          obtain ⟨rest, hr⟩ := sharedTail_extends cfg pr env (some env.createdKey) fit
            (some lt) lt
            ([Action.postIssue lt
                (match env.fuzzyUserId with | .ok u => some u | .error _ => none)] ++
              [Action.moveIssuesToSprint [env.createdKey] env.activeSprintId])
          exact ⟨lt, _, _, hr.symm⟩
        · rw [if_neg hb]
          obtain ⟨rest, hr⟩ := sharedTail_extends cfg pr env (some env.createdKey) fit
            (some lt) lt
            [Action.postIssue lt
              (match env.fuzzyUserId with | .ok u => some u | .error _ => none)]
          exact ⟨lt, _, _, hr.symm⟩

/-- C7: in the shared tail the PR update is the last action, always rewrites
the body with the link at the top (no anchor pattern), and carries the
rewritten title `"{title} [{key}]"` exactly when `isCreateIssue` is set or the
key did not come from the title; and in create-issue mode (webhook unset,
append mode unset) any run that performs actions at all performed the issue
creation first, so reaching the tail with `isCreateIssue` means the ticket was
created in this run. -/
theorem C7_tail_update :
    (∀ (cfg : Config) (pr : PullRequest) (env : Env) (k : String) (fit : Bool)
        (ititle : Option String) (ltitle : String) (acc : List Action),
        cfg.isOnlyTransition = false →
        (sharedTail cfg pr env (some k) fit ititle ltitle acc).actions.getLast? =
          some (Action.updatePR
            (if cfg.isCreateIssue = true ∨ fit = false then some (ltitle ++ " [" ++ k ++ "]")
              else none)
            (some (prLink (some k) fit ititle cfg.host ++ "\n" ++ jsNull pr.body)))) ∧
      (∀ (cfg : Config) (pr : PullRequest) (env : Env),
        cfg.webhook = "" → cfg.isOnlyAppendDesc = false → cfg.isCreateIssue = true →
        (run cfg pr env).actions = [] ∨
          ∃ s u rest, (run cfg pr env).actions = Action.postIssue s u :: rest) := by
  constructor
  · intro cfg pr env k fit ititle ltitle acc h
    simp only [sharedTail, h]
    simp [List.getLast?_concat]
  · intro cfg pr env hw ha hc
    have hw' : ¬(cfg.webhook ≠ "") := by simp [hw]
    have ha' : ¬(cfg.isOnlyAppendDesc = true) := by simp [ha]
    cases hsum : env.issueSummary with
    | error e =>
      by_cases hcred : (cfg.email ≠ "" ∧ cfg.token ≠ "" ∧
          (resolveKey (latestTitleOf pr env) pr.headRef).isSome = true)
      · have hrun : run cfg pr env = ⟨[], .failure e⟩ := by
          simp only [run]
          rw [if_pos hcred, hsum]
          rfl
        rw [hrun]
        exact Or.inl rfl
      · rw [run_nofetch cfg pr env hcred]
        simp only [afterSummary]
        rw [if_neg hw', if_neg ha', if_pos hc]
        exact createIssuePhase_first_action cfg pr env _ _ _
    | ok s =>
      rw [run_ok cfg pr env s hsum]
      simp only [afterSummary]
      rw [if_neg hw', if_neg ha', if_pos hc]
      exact createIssuePhase_first_action cfg pr env _ _ _

def cfgCreate : Config := { cfgBase with isCreateIssue := true, project := "P", type_ := "T" }

/-- C7 witness: a concrete tail (key from the branch, so the title is
rewritten) and a concrete create-mode run whose first action is the creation. -/
theorem C7_witness :
    (sharedTail cfgBase prTitleKey envBase (some ("K-1")) false none ("T") []).actions.getLast? =
        some (Action.updatePR (some ("T [K-1]")) (some ("[K-1](H/browse/K-1)\nB"))) ∧
      ((run cfgCreate prNoKey envBase).actions = [] ∨
        ∃ s u rest, (run cfgCreate prNoKey envBase).actions = Action.postIssue s u :: rest) := by
  constructor
  · rw [C7_tail_update.1 cfgBase prTitleKey envBase ("K-1") false none ("T") [] rfl]
    decide
  · exact C7_tail_update.2 cfgCreate prNoKey envBase rfl rfl rfl

/-- C8: webhook mode with a resolved key and a merged PR sends the webhook
POST, attaches the prefix-resolved fix version exactly when
`isAddFixVersionOnMerge` is set, and exits successfully with no PR update and
no comment. -/
theorem C8_webhook_merged (cfg : Config) (pr : PullRequest) (env : Env) (k s : String)
    (hw : cfg.webhook ≠ "") (hm : pr.merged = true)
    (hk : resolveKey (latestTitleOf pr env) pr.headRef = some k)
    (hs : env.issueSummary = .ok s) :
    run cfg pr env =
      ⟨Action.webhookPost cfg.webhook [k] ::
          (if cfg.isAddFixVersionOnMerge = true then [Action.putFixVersion k env.versionId]
            else []),
        .success⟩ := by
  rw [run_ok cfg pr env s hs]
  simp only [afterSummary]
  rw [if_pos hw, hk]
  by_cases hf : cfg.isAddFixVersionOnMerge = true <;> simp [webhookPhase, hm, hf]

def cfgWebhookFlag : Config := { cfgBase with webhook := "W", isAddFixVersionOnMerge := true }

def prMergedKey : PullRequest := { prTitleKey with merged := true }

/-- C8 witness: merged PR, flag set — webhook POST then fix-version, nothing
else. -/
theorem C8_witness :
    run cfgWebhookFlag prMergedKey envBase =
      ⟨[Action.webhookPost ("W") [("AB-12")], Action.putFixVersion ("AB-12") ("V1")],
        .success⟩ := by
  have hx := C8_webhook_merged cfgWebhookFlag prMergedKey envBase ("AB-12") ("S")
    (by decide) rfl (by decide) rfl
  exact hx.trans (by decide)

/-- C10: in append-description-only mode with no webhook and no resolved key,
the PR body is still updated and the inserted link interpolates the undefined
key as the literal text `undefined`: there is no missing-key guard before the
mutating call. -/
theorem C10_undefined_key (cfg : Config) (pr : PullRequest) (env : Env) (b : String)
    (hw : cfg.webhook = "") (ha : cfg.isOnlyAppendDesc = true)
    (hr : cfg.appendDescAfterRegex = "") (hb : pr.body = some b)
    (hk : resolveKey (latestTitleOf pr env) pr.headRef = none) :
    run cfg pr env =
      ⟨[Action.updatePR none
          (some ("[" ++ "undefined" ++ "](" ++ cfg.host ++ "/browse/" ++ "undefined" ++ ")" ++
            "\n" ++ b))],
        .success⟩ := by
  have hfit : titleHasKey (latestTitleOf pr env) = false := by
    unfold titleHasKey
    rw [titleScan_none_of_resolve_none hk]
    rfl
  have hnc : ¬(cfg.email ≠ "" ∧ cfg.token ≠ "" ∧
      (resolveKey (latestTitleOf pr env) pr.headRef).isSome = true) := by
    simp [hk]
  have hw' : ¬(cfg.webhook ≠ "") := by simp [hw]
  have hr' : ¬(cfg.appendDescAfterRegex ≠ "") := by simp [hr]
  rw [run_nofetch cfg pr env hnc]
  simp only [afterSummary]
  rw [if_neg hw', if_pos ha, hk, hfit]
  simp only [appendDescPhase, hb]
  rw [if_neg hr', insertLink_none]
  simp [prLink, jsUndef]

def cfgAppendOnly : Config := { cfgBase with isOnlyAppendDesc := true }

/-- C10 witness: concrete run with no key anywhere in append mode. -/
theorem C10_witness :
    run cfgAppendOnly prNoKey envBase =
      ⟨[Action.updatePR none
          (some ("[" ++ "undefined" ++ "](" ++ cfgAppendOnly.host ++ "/browse/" ++
            "undefined" ++ ")" ++ "\n" ++ "B"))],
        .success⟩ :=
  C10_undefined_key cfgAppendOnly prNoKey envBase ("B") rfl rfl rfl rfl (by decide)

end GJI
